import Mathlib

/-!
Verification of the flight-search service (src/flight_search_mcp.py) against
its specification.  The dynamic JSON values the Python code manipulates are
embedded as the inductive type `Json` (JSON numbers are modelled as integers;
the repository only ever builds or compares integral prices and durations).
Python operations that can raise (`.get` on a non-dict, `len` on a number,
iteration over a non-iterable, string formatting of a non-number, comparison
of incomparable values) are modelled in the `Except String` monad; a returned
`.error` is a raised Python exception, and the source's `try/except` blocks
are the `match` on that result.  External collaborators are parameters:
`datetime.fromisoformat`+`strftime` is a `parse : String → Option String`
argument (`none` = the library call raised), `datetime.now().isoformat()` is
a `now : String` argument, the SerpAPI HTTP round trip is a
`net : Params → NetResult` argument, and `os.getenv("SERPAPI_KEY")` is an
`Option String` argument.
-/

inductive Json where
  | null
  | bool (b : Bool)
  | num (n : Int)
  | str (s : String)
  | arr (xs : List Json)
  | obj (fields : List (String × Json))

/-- Python truthiness: `None`, `False`, `0`, `""`, `[]`, `{}` are falsy. -/
def truthy : Json → Bool
  | .null => false
  | .bool b => b
  | .num n => n != 0
  | .str s => s ≠ ""
  | .arr xs => !xs.isEmpty
  | .obj fs => !fs.isEmpty

/-- First binding of a key in a field list (Python dicts have unique keys,
so first-match lookup models dict lookup). -/
def lookupField : List (String × Json) → String → Option Json
  | [], _ => none
  | (k', v) :: rest, k => if k' = k then some v else lookupField rest k

/-- Pure projection: the value of key `k` when the value is a dict holding it. -/
def jget : Json → String → Option Json
  | .obj fs, k => lookupField fs k
  | _, _ => none

def hasKey (j : Json) (k : String) : Bool := (jget j k).isSome

/-- Python `d.get(k, default)`: raises (AttributeError) unless `d` is a dict. -/
def pygetD (j : Json) (k : String) (d : Json) : Except String Json :=
  match j with
  | .obj fs => .ok ((lookupField fs k).getD d)
  | _ => .error "AttributeError: get"

/-- Python `for x in v`: lists yield their elements, strings their characters
(as one-character strings), dicts their keys; everything else raises. -/
def pyIter : Json → Except String (List Json)
  | .arr xs => .ok xs
  | .str s => .ok (s.data.map fun c => .str (String.mk [c]))
  | .obj fs => .ok (fs.map fun kv => .str kv.1)
  | _ => .error "TypeError: not iterable"

/-- Python `len(v)` for sized values; raises otherwise. -/
def pyLen : Json → Except String Int
  | .arr xs => .ok xs.length
  | .str s => .ok s.length
  | .obj fs => .ok fs.length
  | _ => .error "TypeError: len"

/-- Python `v[0]` as the source uses it (`flight["flights"][0]`). -/
def pyIndex0 : Json → Except String Json
  | .arr (x :: _) => .ok x
  | .arr [] => .error "IndexError"
  | .str s =>
    match s.data with
    | c :: _ => .ok (.str (String.mk [c]))
    | [] => .error "IndexError"
  | _ => .error "TypeError: not subscriptable"

/-- Python `v[k]` with a string key (used only after a containment check). -/
def pyIndexKey (j : Json) (k : String) : Except String Json :=
  match j with
  | .obj fs =>
    match lookupField fs k with
    | some v => .ok v
    | none => .error "KeyError"
  | _ => .error "TypeError: not subscriptable"

/-- Python `"error" in results`: key containment for dicts, membership for
lists, substring test for strings; raises for numbers and the rest. -/
def pyContains (j : Json) (k : String) : Except String Bool :=
  match j with
  | .obj fs => .ok (fs.any fun kv => kv.1 = k)
  | .arr xs => .ok (xs.any fun x => match x with | .str s => s = k | _ => false)
  | .str s => .ok ((s.splitOn k).length > 1)
  | _ => .error "TypeError: argument of type is not iterable"

theorem ok_bind {α β : Type} (a : α) (f : α → Except String β) :
    (Except.ok a >>= f) = f a := rfl

theorem error_bind {α β : Type} (e : String) (f : α → Except String β) :
    ((Except.error e : Except String α) >>= f) = Except.error e := rfl

theorem bind_ok_iff {α β : Type} (x : Except String α) (f : α → Except String β)
    (c : β) : (x >>= f) = .ok c ↔ ∃ a, x = .ok a ∧ f a = .ok c := by
  cases x with
  | ok a => simp [ok_bind]
  | error e => simp [error_bind]

/-- Effectful list map, modelling a Python loop that appends per iteration and
aborts at the first raised exception. -/
def exMapM {α β : Type} (f : α → Except String β) : List α → Except String (List β)
  | [] => .ok []
  | x :: xs => do
    let y ← f x
    let ys ← exMapM f xs
    .ok (y :: ys)

theorem exMapM_ok_length {α β : Type} (f : α → Except String β) :
    ∀ (l : List α) (l' : List β), exMapM f l = .ok l' → l'.length = l.length := by
  intro l
  induction l with
  | nil =>
    intro l' h
    simp only [exMapM, Except.ok.injEq] at h
    simp [← h]
  | cons x xs ih =>
    intro l' h
    simp only [exMapM, bind_ok_iff] at h
    obtain ⟨y, _, ys, hys, h3⟩ := h
    simp only [Except.ok.injEq] at h3
    subst h3
    simp [ih ys hys]

theorem exMapM_ok_mem {α β : Type} (f : α → Except String β) :
    ∀ (l : List α) (l' : List β), exMapM f l = .ok l' →
      ∀ y ∈ l', ∃ x ∈ l, f x = .ok y := by
  intro l
  induction l with
  | nil =>
    intro l' h
    simp only [exMapM, Except.ok.injEq] at h
    simp [← h]
  | cons x xs ih =>
    intro l' h
    simp only [exMapM, bind_ok_iff] at h
    obtain ⟨y, hy, ys, hys, h3⟩ := h
    simp only [Except.ok.injEq] at h3
    subst h3
    intro z hz
    rcases List.mem_cons.1 hz with hz | hz
    · exact ⟨x, List.mem_cons_self .., by rw [← hz] at hy; exact hy⟩
    · obtain ⟨w, hw, hfw⟩ := ih ys hys z hz
      exact ⟨w, List.mem_cons_of_mem _ hw, hfw⟩

/-! ### Decimal rendering (Python f-string `{n}` and `{n:,.0f}`) -/

def digitChar (d : Nat) : Char := Char.ofNat (48 + d)

/-- Reference form of the decimal digits (well-founded recursion; used only
in proofs). -/
def natDigitsSpec (n : Nat) : List Char :=
  if n < 10 then [digitChar n]
  else natDigitsSpec (n / 10) ++ [digitChar (n % 10)]
decreasing_by exact Nat.div_lt_self (by omega) (by omega)

/-- Fuel-driven digit accumulator (structural recursion, so that concrete
values reduce definitionally). -/
def natDigitsGo : Nat → Nat → List Char → List Char
  | 0, _, acc => acc
  | fuel + 1, n, acc =>
    if n < 10 then digitChar n :: acc
    else natDigitsGo fuel (n / 10) (digitChar (n % 10) :: acc)

/-- Big-endian decimal digits of a natural number, as Python prints it. -/
def natDigits (n : Nat) : List Char := natDigitsGo (n + 1) n []

theorem natDigitsGo_spec :
    ∀ (fuel n : Nat) (acc : List Char), n < 10 ^ (fuel + 1) →
      natDigitsGo (fuel + 1) n acc = natDigitsSpec n ++ acc := by
  intro fuel
  induction fuel with
  | zero =>
    intro n acc h
    have h10 : n < 10 := by simpa using h
    rw [natDigitsGo, if_pos h10, natDigitsSpec, if_pos h10]
    rfl
  | succ m ih =>
    intro n acc h
    by_cases h10 : n < 10
    · rw [natDigitsGo, if_pos h10, natDigitsSpec, if_pos h10]
      rfl
    · rw [natDigitsGo, if_neg h10, natDigitsSpec, if_neg h10]
      rw [ih (n / 10) _ (by
        have : 10 ^ (m + 1 + 1) = 10 ^ (m + 1) * 10 := by ring
        rw [this] at h
        omega)]
      simp

theorem natDigits_eq_spec (n : Nat) : natDigits n = natDigitsSpec n := by
  have hlt : n < 10 ^ (n + 1) := by
    calc n < 10 ^ n := Nat.lt_pow_self (by norm_num) n
    _ ≤ 10 ^ (n + 1) := Nat.pow_le_pow_right (by omega) (by omega)
  simpa [natDigits] using natDigitsGo_spec n n [] hlt

/-- Python `str(i)` for an integer. -/
def intDecimal (i : Int) : List Char :=
  if i < 0 then '-' :: natDigits i.natAbs else natDigits i.toNat

/-- Thousands grouping of a reversed digit list: a comma after every three
digits (working from the least significant end). -/
def commaRev : List Char → List Char
  | a :: b :: c :: d :: rest => a :: b :: c :: ',' :: commaRev (d :: rest)
  | l => l

/-- Python `f"{n:,.0f}"` for an integral value. -/
def commaFmt (i : Int) : String :=
  if i < 0 then String.mk ('-' :: (commaRev (natDigits i.natAbs).reverse).reverse)
  else String.mk (commaRev (natDigits i.toNat).reverse).reverse

def decodeDigitsVal (cs : List Char) : Nat :=
  cs.foldl (fun a c => a * 10 + (c.toNat - 48)) 0

/-- Read a nonempty all-digit character list back as a number. -/
def decodeDigits (cs : List Char) : Option Nat :=
  if cs ≠ [] ∧ cs.all Char.isDigit then some (decodeDigitsVal cs) else none

theorem digitChar_isDigit : ∀ d < 10, (digitChar d).isDigit = true := by decide

theorem digitChar_toNat : ∀ d < 10, (digitChar d).toNat - 48 = d := by decide

theorem natDigits_ne_nil (n : Nat) : natDigits n ≠ [] := by
  rw [natDigits_eq_spec, natDigitsSpec]
  split <;> simp

theorem natDigits_all_digit (n : Nat) : (natDigits n).all Char.isDigit = true := by
  rw [natDigits_eq_spec]
  induction n using Nat.strong_induction_on with
  | _ n ih =>
    rw [natDigitsSpec]
    split
    · simp [digitChar_isDigit n (by omega)]
    · rename_i h
      have hlt : n / 10 < n := Nat.div_lt_self (by omega) (by omega)
      simp only [List.all_append, Bool.and_eq_true]
      exact ⟨ih _ hlt, by simp [digitChar_isDigit (n % 10) (Nat.mod_lt _ (by omega))]⟩

theorem decodeDigitsVal_append_one (cs : List Char) (c : Char) :
    decodeDigitsVal (cs ++ [c]) = decodeDigitsVal cs * 10 + (c.toNat - 48) := by
  simp [decodeDigitsVal, List.foldl_append]

theorem decodeDigitsVal_natDigits (n : Nat) : decodeDigitsVal (natDigits n) = n := by
  rw [natDigits_eq_spec]
  induction n using Nat.strong_induction_on with
  | _ n ih =>
    rw [natDigitsSpec]
    split
    · rename_i h
      simp [decodeDigitsVal, digitChar_toNat n h]
    · rename_i h
      have hlt : n / 10 < n := Nat.div_lt_self (by omega) (by omega)
      rw [decodeDigitsVal_append_one]
      rw [show decodeDigitsVal (natDigitsSpec (n / 10)) = n / 10 from
        natDigits_eq_spec (n / 10) ▸ ih _ hlt]
      rw [digitChar_toNat (n % 10) (Nat.mod_lt _ (by omega))]
      omega

theorem decodeDigits_natDigits (n : Nat) : decodeDigits (natDigits n) = some n := by
  simp [decodeDigits, natDigits_ne_nil, natDigits_all_digit, decodeDigitsVal_natDigits]

theorem isDigit_char_facts (c : Char) (h : c.isDigit = true) :
    c ≠ 'h' ∧ c ≠ 'm' ∧ c ≠ ' ' := by
  refine ⟨?_, ?_, ?_⟩ <;> (intro he; subst he; exact absurd h (by decide))

theorem natDigits_no_h (n : Nat) : 'h' ∉ natDigits n := by
  intro hmem
  have := List.all_eq_true.1 (natDigits_all_digit n) _ hmem
  exact (isDigit_char_facts _ this).1 rfl

theorem natDigits_no_m (n : Nat) : 'm' ∉ natDigits n := by
  intro hmem
  have := List.all_eq_true.1 (natDigits_all_digit n) _ hmem
  exact (isDigit_char_facts _ this).2.1 rfl

/-! ### format_duration (src/flight_search_mcp.py lines 224-237) -/

/-- `format_duration(minutes)` for a Python int: `0 → "Unknown"`, otherwise
`minutes // 60` hours and `minutes % 60` minutes (floor semantics, as in
Python, hence `Int.fdiv`/`Int.fmod`), rendered as "Hh Mm" / "Hh" / "Mm". -/
def format_duration (minutes : Int) : String :=
  if minutes = 0 then "Unknown"
  else
    let hours := minutes.fdiv 60
    let remaining_minutes := minutes.fmod 60
    if 0 < hours ∧ 0 < remaining_minutes then
      String.mk (intDecimal hours ++ ('h' :: ' ' :: (intDecimal remaining_minutes ++ ['m'])))
    else if 0 < hours then String.mk (intDecimal hours ++ ['h'])
    else String.mk (intDecimal remaining_minutes ++ ['m'])

/-- `format_duration` applied to a dynamic value, as the normalizer calls it:
`if not minutes` accepts any falsy value; the `//` arithmetic then raises
unless the value is a number (Python bool counts as an int). -/
def pyFormatDuration (j : Json) : Except String String :=
  if truthy j = false then .ok "Unknown"
  else
    match j with
    | .num n => .ok (format_duration n)
    | .bool _ => .ok (format_duration 1)
    | _ => .error "TypeError: unsupported operand type for floordiv"

/-- Split a character list at the first occurrence of `c` (exclusive). -/
def splitFirst (c : Char) : List Char → Option (List Char × List Char)
  | [] => none
  | x :: xs =>
    if x = c then some ([], xs)
    else (splitFirst c xs).map fun p => (x :: p.1, p.2)

/-- Strip a required final character `c`. -/
def stripLast (c : Char) : List Char → Option (List Char)
  | [] => none
  | [x] => if x = c then some [] else none
  | x :: xs => (stripLast c xs).map (x :: ·)

/-- Parse the hours and minutes back out of a `format_duration` string:
"Hh Mm" / "Hh" / "Mm" recover `H*60 + M`; anything else (including
"Unknown") yields `none`. -/
def parse_duration (s : String) : Option Int :=
  match splitFirst 'h' s.data with
  | some (pre, post) => do
    let h ← decodeDigits pre
    match post with
    | [] => some (h * 60 : Nat)
    | ' ' :: rest => do
      let body ← stripLast 'm' rest
      let r ← decodeDigits body
      some (h * 60 + r : Nat)
    | _ => none
  | none => do
    let body ← stripLast 'm' s.data
    let r ← decodeDigits body
    some (r : Nat)

theorem splitFirst_not_mem (c : Char) :
    ∀ (xs : List Char), c ∉ xs → splitFirst c xs = none := by
  intro xs
  induction xs with
  | nil => intro _; rfl
  | cons x l ih =>
    intro h
    have hx : ¬x = c := fun he => h (he ▸ List.mem_cons_self ..)
    simp only [splitFirst, if_neg hx, ih (fun hm => h (List.mem_cons_of_mem _ hm))]
    rfl

theorem splitFirst_append (c : Char) :
    ∀ (xs ys : List Char), c ∉ xs → splitFirst c (xs ++ c :: ys) = some (xs, ys) := by
  intro xs
  induction xs with
  | nil => intro ys _; simp [splitFirst]
  | cons x l ih =>
    intro ys h
    have hx : ¬x = c := fun he => h (he ▸ List.mem_cons_self ..)
    simp only [List.cons_append, splitFirst, if_neg hx, List.append_eq,
      ih ys (fun hm => h (List.mem_cons_of_mem _ hm))]
    rfl

theorem stripLast_append (c : Char) :
    ∀ (xs : List Char), stripLast c (xs ++ [c]) = some xs := by
  intro xs
  induction xs with
  | nil => simp [stripLast]
  | cons x l ih =>
    cases l with
    | nil => simp [stripLast]
    | cons y m => simp only [List.cons_append] at ih ⊢; simp [stripLast, ih]

theorem intDecimal_natCast (n : Nat) : intDecimal (n : Int) = natDigits n := by
  rw [intDecimal, if_neg (by omega : ¬(n : Int) < 0)]
  norm_num

theorem data_mk (l : List Char) : (String.mk l).data = l := rfl

theorem parse_format_duration (m : Int) (hm : 1 ≤ m) :
    parse_duration (format_duration m) = some m := by
  obtain ⟨k, rfl⟩ : ∃ k : Nat, m = (k : Int) :=
    ⟨m.toNat, (Int.toNat_of_nonneg (by omega)).symm⟩
  have hk : 1 ≤ k := by exact_mod_cast hm
  have hfdiv : (k : Int).fdiv 60 = ((k / 60 : Nat) : Int) := by
    exact_mod_cast Int.fdiv_eq_div (by positivity) (by norm_num)
  have hfmod : (k : Int).fmod 60 = ((k % 60 : Nat) : Int) := by
    exact_mod_cast Int.fmod_eq_mod (by positivity) (by norm_num)
  rw [format_duration, if_neg (by omega : ¬(k : Int) = 0)]
  simp only [hfdiv, hfmod]
  by_cases h1 : 0 < k / 60
  · by_cases h2 : 0 < k % 60
    · rw [if_pos ⟨by exact_mod_cast h1, by exact_mod_cast h2⟩]
      rw [parse_duration]
      simp only [intDecimal_natCast]
      show (match splitFirst 'h' (natDigits (k / 60) ++ 'h' ::
          (' ' :: (natDigits (k % 60) ++ ['m']))) with
        | some (pre, post) => do
          let h ← decodeDigits pre
          match post with
          | [] => some (h * 60 : Nat)
          | ' ' :: rest => do
            let body ← stripLast 'm' rest
            let r ← decodeDigits body
            some (h * 60 + r : Nat)
          | _ => none
        | none => do
          let body ← stripLast 'm' (natDigits (k / 60) ++ 'h' ::
            (' ' :: (natDigits (k % 60) ++ ['m'])))
          let r ← decodeDigits body
          some (r : Nat)) = some (k : Int)
      rw [splitFirst_append 'h' _ _ (natDigits_no_h _)]
      have hkk : k / 60 * 60 + k % 60 = k := by omega
      simp only [decodeDigits_natDigits, stripLast_append, Option.bind_eq_bind,
        Option.some_bind]
      exact congrArg some (by exact_mod_cast hkk)
    · rw [if_neg (by push_cast; omega :
        ¬(0 < ((k / 60 : Nat) : Int) ∧ 0 < ((k % 60 : Nat) : Int)))]
      rw [if_pos (by exact_mod_cast h1 : 0 < ((k / 60 : Nat) : Int))]
      rw [parse_duration]
      simp only [intDecimal_natCast, data_mk]
      rw [splitFirst_append 'h' _ _ (natDigits_no_h _)]
      have hkk : k / 60 * 60 = k := by omega
      simp only [decodeDigits_natDigits, Option.bind_eq_bind, Option.some_bind]
      exact congrArg some (by exact_mod_cast hkk)
  · have h2 : 0 < k % 60 := by omega
    rw [if_neg (by push_cast; omega :
      ¬(0 < ((k / 60 : Nat) : Int) ∧ 0 < ((k % 60 : Nat) : Int)))]
    rw [if_neg (by exact_mod_cast h1 : ¬0 < ((k / 60 : Nat) : Int))]
    rw [parse_duration]
    simp only [intDecimal_natCast, data_mk]
    have hnoh : 'h' ∉ natDigits (k % 60) ++ ['m'] := by
      intro hmem
      rcases List.mem_append.1 hmem with hmem | hmem
      · exact natDigits_no_h _ hmem
      · simp at hmem
    rw [splitFirst_not_mem 'h' _ hnoh]
    have hkk : k % 60 = k := by omega
    simp only [stripLast_append, decodeDigits_natDigits, Option.bind_eq_bind,
      Option.some_bind]
    exact congrArg some (by exact_mod_cast hkk)

/-! ### format_time (src/flight_search_mcp.py lines 239-255) -/

/-- Python `c in s` for a single-character needle: character containment. -/
def strContains (s : String) (c : Char) : Bool := s.data.contains c

/-- `format_time(time_str)` for a string argument.  The library call
`datetime.fromisoformat` followed by `strftime("%b-%d, %Y | %I:%M %p")` is the
`parse` parameter; `parse x = none` models the library raising, which the
source's bare `except` turns into returning the input unchanged.  The source
replaces every "Z" with "+00:00" before parsing. -/
def format_time (parse : String → Option String) (time_str : String) : String :=
  if time_str = "" then "Unknown"
  else if strContains time_str '|' then time_str
  else if strContains time_str 'T' then
    match parse (time_str.replace "Z" "+00:00") with
    | some formatted => formatted
    | none => time_str
  else time_str

/-- `format_time` applied to a dynamic value: `if not time_str` accepts any
falsy value; for a truthy non-string the `"|" in time_str` test raises
TypeError, which the function's own `except` catches, returning the value
unchanged — so this wrapper is total. -/
def pyFormatTime (parse : String → Option String) (j : Json) : Json :=
  if truthy j = false then .str "Unknown"
  else
    match j with
    | .str s => .str (format_time parse s)
    | other => other

/-! ### Python `str()` / `repr()` rendering used by f-string interpolation -/

/-- An ASCII single quote, written by code point to keep string literals
punctuation-free. -/
def sglQuote : String := String.singleton (Char.ofNat 39)

mutual

/-- Python `repr(v)` for the JSON-like values of this model (CPython's
rendering of nested lists/dicts: elements separated by ", ", dict keys
followed by ": ", strings quoted). -/
def pyRepr : Json → String
  | .null => "None"
  | .bool b => cond b "True" "False"
  | .num n => String.mk (intDecimal n)
  | .str s => sglQuote ++ s ++ sglQuote
  | .arr xs => "[" ++ String.intercalate ", " (pyReprList xs) ++ "]"
  | .obj fs => "\x7b" ++ String.intercalate ", " (pyReprFields fs) ++ "\x7d"

def pyReprList : List Json → List String
  | [] => []
  | x :: xs => pyRepr x :: pyReprList xs

def pyReprFields : List (String × Json) → List String
  | [] => []
  | kv :: fs => (sglQuote ++ kv.1 ++ sglQuote ++ ": " ++ pyRepr kv.2) :: pyReprFields fs

end

/-- Python `str(v)` (what an f-string interpolates): like `repr` except that a
top-level string is not quoted. -/
def pyStr : Json → String
  | .str s => s
  | j => pyRepr j

/-! ### generate_booking_link (src/flight_search_mcp.py lines 257-343) -/

/-- Python `if return_date:` for the optional parameter (an empty string is
falsy). -/
def retTruthy : Option String → Bool
  | some s => s ≠ ""
  | none => false

/-- Method 3 of the source: the synthesized Google Flights URL.  (Methods 4
and 5, source lines 303-335, sit after this unconditional `return` and are
unreachable; spec §4.3 flags them as dead code, so they are not modelled.) -/
def gblMethod3 (source destination departure_date : String)
    (return_date : Option String) : String :=
  let params := ["hl=en", "curr=USD", "f=0",
    "tfs=CAEQAxoaagwIAhIIL20vMDJqNnQSCjIwMjUtMDMtMTUaGhIKMjAyNS0wMy0yMBAC",
    "q=Flights%20from%20" ++ source ++ "%20to%20" ++ destination,
    "d1=" ++ departure_date]
  let params := if retTruthy return_date then
      params ++ ["d2=" ++ return_date.getD "", "f=1"]
    else params
  "https://www.google.com/travel/flights" ++ "?" ++ String.intercalate "&" params

/-- The `except` fallback of generate_booking_link (source lines 337-343). -/
def gblFallback (source destination departure_date : String)
    (return_date : Option String) : String :=
  if retTruthy return_date then
    "https://www.google.com/travel/flights" ++ "?hl=en&curr=USD&q=Flights%20from%20"
      ++ source ++ "%20to%20" ++ destination ++ "%20on%20" ++ departure_date
      ++ "%20return%20" ++ return_date.getD ""
  else
    "https://www.google.com/travel/flights" ++ "?hl=en&curr=USD&q=Flights%20from%20"
      ++ source ++ "%20to%20" ++ destination ++ "%20on%20" ++ departure_date

/-- The body of generate_booking_link inside its `try`: booking token, then
departure token, then the synthesized URL.  `.get` raises when `flight_data`
is not a dict. -/
def gblBody (flight_data : Json) (source destination departure_date : String)
    (return_date : Option String) : Except String String := do
  let bt ← pygetD flight_data "booking_token" .null
  if truthy bt then
    pure ("https://www.google.com/travel/flights?tfs=" ++ pyStr bt)
  else do
    let dt ← pygetD flight_data "departure_token" .null
    if truthy dt then
      pure ("https://www.google.com/travel/flights?tfs=" ++ pyStr dt)
    else
      pure (gblMethod3 source destination departure_date return_date)

/-- generate_booking_link: always returns a URL string; any raised error falls
back to the generic Google Flights search URL. -/
def generate_booking_link (flight_data : Json)
    (source destination departure_date : String)
    (return_date : Option String) : String :=
  match gblBody flight_data source destination departure_date return_date with
  | .ok url => url
  | .error _ => gblFallback source destination departure_date return_date

/-! ### Python `<` on values and the sort of process_flight_data -/

/-- Three-way comparison on integers, spelled out so that concrete values
reduce definitionally. -/
def intCmp (a b : Int) : Ordering :=
  if a < b then .lt else if b < a then .gt else .eq

def strCmp (a b : String) : Ordering :=
  if a < b then .lt else if b < a then .gt else .eq

mutual

/-- Python's comparison on the modelled values: numbers (bools count as
ints) compare numerically, strings lexicographically, lists lexicographically
elementwise; `None`, dicts and mixed types raise TypeError.  (For lists,
CPython first tests `==` on each pair and compares the first unequal pair;
on the orderable value types here that is exactly a three-way compare.) -/
def pyCmp : Json → Json → Except String Ordering
  | .num a, .num b => .ok (intCmp a b)
  | .num a, .bool b => .ok (intCmp a (if b then 1 else 0))
  | .bool a, .num b => .ok (intCmp (if a then 1 else 0) b)
  | .bool a, .bool b => .ok (intCmp (if a then 1 else 0) (if b then 1 else 0))
  | .str a, .str b => .ok (strCmp a b)
  | .arr xs, .arr ys => pyCmpList xs ys
  | _, _ => .error "TypeError: unsupported comparison"

def pyCmpList : List Json → List Json → Except String Ordering
  | [], [] => .ok .eq
  | [], _ :: _ => .ok .lt
  | _ :: _, [] => .ok .gt
  | x :: xs, y :: ys => do
    let c ← pyCmp x y
    match c with
    | .eq => pyCmpList xs ys
    | o => pure o

end

/-- Python `a < b`. -/
def pyLt (a b : Json) : Except String Bool := do
  let c ← pyCmp a b
  pure (match c with | .lt => true | _ => false)

/-- The sort key of `flights.sort(key=lambda x: x.get("price", float("inf")))`:
`none` stands for the `float("inf")` default (the enhanced dicts always carry
"price", so the default is never taken, but it is modelled faithfully). -/
def isNumLike : Json → Bool
  | .num _ => true
  | .bool _ => true
  | _ => false

/-- Python `<` on sort keys, where `none` is `float("inf")`: infinity compares
with numbers (and itself) and raises against anything else. -/
def keyLt : Option Json → Option Json → Except String Bool
  | none, none => .ok false
  | none, some b => if isNumLike b then .ok false else .error "TypeError: inf"
  | some a, none => if isNumLike a then .ok true else .error "TypeError: inf"
  | some a, some b => pyLt a b

/-- Key extraction `x.get("price", float("inf"))` (raises unless a dict). -/
def priceKeyOf : Json → Except String (Option Json)
  | .obj fs => .ok (lookupField fs "price")
  | _ => .error "AttributeError: get"

/-- Insert into an already sorted decorated list, stable for equal keys. -/
def insertE (p : Option Json × Json) :
    List (Option Json × Json) → Except String (List (Option Json × Json))
  | [] => .ok [p]
  | q :: qs => do
    let b ← keyLt q.1 p.1
    if b then do
      let r ← insertE p qs
      .ok (q :: r)
    else .ok (p :: q :: qs)

/-- Stable insertion sort over decorated (key, value) pairs; any comparison
that raises aborts the sort, as CPython's `list.sort` would. -/
def isortE : List (Option Json × Json) → Except String (List (Option Json × Json))
  | [] => .ok []
  | p :: ps => do
    let s ← isortE ps
    insertE p s

/-- `flights.sort(key=...)` followed by nothing: decorate with the price key
(CPython computes all keys before comparing), sort, undecorate. -/
def pySortByPrice (flights : List Json) : Except String (List Json) := do
  let pairs ← exMapM (fun f => do
    let k ← priceKeyOf f
    pure (k, f)) flights
  let sorted ← isortE pairs
  pure (sorted.map Prod.snd)

/-- Adjacent sortedness guarantee produced by a successful Python sort: for
neighbours `a` before `b`, either `b < a` returned False or `a < b` returned
True — i.e. `a ≤ b` as far as the comparisons performed can tell. -/
def keyLe (a b : Option Json) : Prop :=
  keyLt b a = .ok false ∨ keyLt a b = .ok true

theorem insertE_head_cases (p : Option Json × Json) (qs l : List (Option Json × Json))
    (h : insertE p qs = .ok l) : l.head? = some p ∨ l.head? = qs.head? := by
  cases qs with
  | nil =>
    simp only [insertE, Except.ok.injEq] at h
    subst h
    exact Or.inl rfl
  | cons q2 qs2 =>
    simp only [insertE, bind_ok_iff] at h
    obtain ⟨b, hb, h2⟩ := h
    by_cases hbv : b = true
    · subst hbv
      simp only [if_true] at h2
      obtain ⟨r, _, h3⟩ := (bind_ok_iff _ _ _).1 h2
      simp only [Except.ok.injEq] at h3
      subst h3
      exact Or.inr rfl
    · simp only [Bool.not_eq_true] at hbv
      subst hbv
      simp only [Bool.false_eq_true, if_false, Except.ok.injEq] at h2
      subst h2
      exact Or.inl rfl

/-- Chain relation on decorated pairs. -/
def pairLe (p q : Option Json × Json) : Prop := keyLe p.1 q.1

theorem insertE_chain (p : Option Json × Json) :
    ∀ (qs l : List (Option Json × Json)), List.Chain' pairLe qs →
      insertE p qs = .ok l → List.Chain' pairLe l := by
  intro qs
  induction qs with
  | nil =>
    intro l _ h
    simp only [insertE, Except.ok.injEq] at h
    subst h
    simp
  | cons q qs2 ih =>
    intro l hchain h
    simp only [insertE, bind_ok_iff] at h
    obtain ⟨b, hb, h2⟩ := h
    by_cases hbv : b = true
    · subst hbv
      simp only [if_true] at h2
      obtain ⟨r, hr, h3⟩ := (bind_ok_iff _ _ _).1 h2
      simp only [Except.ok.injEq] at h3
      subst h3
      have hchain2 := (List.chain'_cons'.1 hchain).2
      have hrest := ih r hchain2 hr
      refine List.chain'_cons'.2 ⟨?_, hrest⟩
      intro z hz
      rcases insertE_head_cases p qs2 r hr with hc | hc
      · rw [hc] at hz
        simp only [Option.mem_def, Option.some.injEq] at hz
        subst hz
        exact Or.inr hb
      · rw [hc] at hz
        exact (List.chain'_cons'.1 hchain).1 z hz
    · simp only [Bool.not_eq_true] at hbv
      subst hbv
      simp only [Bool.false_eq_true, if_false, Except.ok.injEq] at h2
      subst h2
      refine List.chain'_cons'.2 ⟨?_, hchain⟩
      intro z hz
      simp only [List.head?_cons, Option.mem_def, Option.some.injEq] at hz
      subst hz
      exact Or.inl hb

theorem insertE_length (p : Option Json × Json) :
    ∀ (qs l : List (Option Json × Json)), insertE p qs = .ok l →
      l.length = qs.length + 1 := by
  intro qs
  induction qs with
  | nil =>
    intro l h
    simp only [insertE, Except.ok.injEq] at h
    subst h
    rfl
  | cons q qs2 ih =>
    intro l h
    simp only [insertE, bind_ok_iff] at h
    obtain ⟨b, hb, h2⟩ := h
    by_cases hbv : b = true
    · subst hbv
      simp only [if_true] at h2
      obtain ⟨r, hr, h3⟩ := (bind_ok_iff _ _ _).1 h2
      simp only [Except.ok.injEq] at h3
      subst h3
      simp [ih r hr]
    · simp only [Bool.not_eq_true] at hbv
      subst hbv
      simp only [Bool.false_eq_true, if_false, Except.ok.injEq] at h2
      subst h2
      simp

theorem insertE_mem (p : Option Json × Json) :
    ∀ (qs l : List (Option Json × Json)), insertE p qs = .ok l →
      ∀ z ∈ l, z = p ∨ z ∈ qs := by
  intro qs
  induction qs with
  | nil =>
    intro l h
    simp only [insertE, Except.ok.injEq] at h
    subst h
    simp
  | cons q qs2 ih =>
    intro l h
    simp only [insertE, bind_ok_iff] at h
    obtain ⟨b, hb, h2⟩ := h
    by_cases hbv : b = true
    · subst hbv
      simp only [if_true] at h2
      obtain ⟨r, hr, h3⟩ := (bind_ok_iff _ _ _).1 h2
      simp only [Except.ok.injEq] at h3
      subst h3
      intro z hz
      rcases List.mem_cons.1 hz with hz | hz
      · exact Or.inr (hz ▸ List.mem_cons_self ..)
      · rcases ih r hr z hz with h4 | h4
        · exact Or.inl h4
        · exact Or.inr (List.mem_cons_of_mem _ h4)
    · simp only [Bool.not_eq_true] at hbv
      subst hbv
      simp only [Bool.false_eq_true, if_false, Except.ok.injEq] at h2
      subst h2
      intro z hz
      rcases List.mem_cons.1 hz with hz | hz
      · exact Or.inl hz
      · exact Or.inr hz

theorem isortE_chain : ∀ (ps l : List (Option Json × Json)),
    isortE ps = .ok l → List.Chain' pairLe l := by
  intro ps
  induction ps with
  | nil =>
    intro l h
    simp only [isortE, Except.ok.injEq] at h
    subst h
    simp
  | cons p ps2 ih =>
    intro l h
    simp only [isortE, bind_ok_iff] at h
    obtain ⟨s, hs, h2⟩ := h
    exact insertE_chain p s l (ih s hs) h2

theorem isortE_length : ∀ (ps l : List (Option Json × Json)),
    isortE ps = .ok l → l.length = ps.length := by
  intro ps
  induction ps with
  | nil =>
    intro l h
    simp only [isortE, Except.ok.injEq] at h
    subst h
    rfl
  | cons p ps2 ih =>
    intro l h
    simp only [isortE, bind_ok_iff] at h
    obtain ⟨s, hs, h2⟩ := h
    rw [insertE_length p s l h2, ih s hs]
    rfl

theorem isortE_mem : ∀ (ps l : List (Option Json × Json)),
    isortE ps = .ok l → ∀ z ∈ l, z ∈ ps := by
  intro ps
  induction ps with
  | nil =>
    intro l h
    simp only [isortE, Except.ok.injEq] at h
    subst h
    simp
  | cons p ps2 ih =>
    intro l h
    simp only [isortE, bind_ok_iff] at h
    obtain ⟨s, hs, h2⟩ := h
    intro z hz
    rcases insertE_mem p s l h2 z hz with h3 | h3
    · exact h3 ▸ List.mem_cons_self ..
    · exact List.mem_cons_of_mem _ (ih s hs z h3)

theorem priceKeyOf_ok (f : Json) (k : Option Json) (h : priceKeyOf f = .ok k) :
    jget f "price" = k := by
  cases f <;> simp_all [priceKeyOf, jget]

theorem chain_snd_transfer : ∀ (l : List (Option Json × Json)),
    List.Chain' pairLe l → (∀ z ∈ l, z.1 = jget z.2 "price") →
    List.Chain' (fun f g => keyLe (jget f "price") (jget g "price"))
      (l.map Prod.snd) := by
  intro l
  induction l with
  | nil => intro _ _; simp
  | cons p l2 ih =>
    intro hchain hinv
    have h1 := List.chain'_cons'.1 hchain
    simp only [List.map_cons]
    refine List.chain'_cons'.2 ⟨?_, ih h1.2 (fun z hz => hinv z (List.mem_cons_of_mem _ hz))⟩
    intro y hy
    cases hl : l2 with
    | nil => subst hl; simp at hy
    | cons z l3 =>
      subst hl
      simp only [List.map_cons, List.head?_cons, Option.mem_def,
        Option.some.injEq] at hy
      subst hy
      have hle : pairLe p z := h1.1 z (by simp)
      have e1 := hinv p (List.mem_cons_self ..)
      have e2 := hinv z (List.mem_cons_of_mem _ (List.mem_cons_self ..))
      unfold pairLe at hle
      rw [e1, e2] at hle
      exact hle

theorem pySortByPrice_ok (flights out : List Json)
    (h : pySortByPrice flights = .ok out) :
    List.Chain' (fun f g => keyLe (jget f "price") (jget g "price")) out ∧
      out.length = flights.length := by
  simp only [pySortByPrice, bind_ok_iff] at h
  obtain ⟨pairs, hpairs, sorted, hsorted, hout⟩ := h
  simp only [pure, Except.pure, Except.ok.injEq] at hout
  subst hout
  have hinv : ∀ z ∈ sorted, z.1 = jget z.2 "price" := by
    intro z hz
    have hz2 := isortE_mem pairs sorted hsorted z hz
    obtain ⟨x, _, hx⟩ := exMapM_ok_mem _ flights pairs hpairs z hz2
    simp only [bind_ok_iff] at hx
    obtain ⟨k, hk, hpure⟩ := hx
    simp only [pure, Except.pure, Except.ok.injEq] at hpure
    subst hpure
    simp [priceKeyOf_ok x k hk]
  constructor
  · exact chain_snd_transfer sorted (isortE_chain pairs sorted hsorted) hinv
  · rw [List.length_map, isortE_length pairs sorted hsorted,
      exMapM_ok_length _ flights pairs hpairs]

/-! ### process_flight_data (src/flight_search_mcp.py lines 83-222) -/

def optStr : Option String → Json
  | none => .null
  | some s => .str s

/-- One normalized flight segment (source lines 116-139). -/
def enhanceSegment (parse : String → Option String) (seg : Json) :
    Except String Json := do
  let airline ← pygetD seg "airline" (.str "Unknown")
  let flight_number ← pygetD seg "flight_number" (.str "N/A")
  let dep_ap ← pygetD seg "departure_airport" (.obj [])
  let dep_name ← pygetD dep_ap "name" (.str "Unknown")
  let dep_id ← pygetD dep_ap "id" (.str "")
  let dep_time ← pygetD dep_ap "time" (.str "")
  let arr_ap ← pygetD seg "arrival_airport" (.obj [])
  let arr_name ← pygetD arr_ap "name" (.str "Unknown")
  let arr_id ← pygetD arr_ap "id" (.str "")
  let arr_time ← pygetD arr_ap "time" (.str "")
  let dur ← pygetD seg "duration" (.num 0)
  let dur_s ← pyFormatDuration dur
  let aircraft ← pygetD seg "airplane" (.str "Unknown")
  let travel_class ← pygetD seg "travel_class" (.str "")
  let logo ← pygetD seg "airline_logo" (.str "")
  let extensions ← pygetD seg "extensions" (.arr [])
  let legroom ← pygetD seg "legroom" (.str "")
  let overnight ← pygetD seg "overnight" (.bool false)
  let delayed ← pygetD seg "often_delayed_by_over_30_min" (.bool false)
  pure (.obj [
    ("airline", airline),
    ("flight_number", flight_number),
    ("departure_airport", .obj [
      ("name", dep_name), ("id", dep_id), ("time", pyFormatTime parse dep_time)]),
    ("arrival_airport", .obj [
      ("name", arr_name), ("id", arr_id), ("time", pyFormatTime parse arr_time)]),
    ("duration", .str dur_s),
    ("aircraft", aircraft),
    ("travel_class", travel_class),
    ("airline_logo", logo),
    ("extensions", extensions),
    ("legroom", legroom),
    ("overnight", overnight),
    ("often_delayed", delayed)])

/-- One normalized layover (source lines 143-150). -/
def enhanceLayover (lay : Json) : Except String Json := do
  let dur ← pygetD lay "duration" (.num 0)
  let dur_s ← pyFormatDuration dur
  let name ← pygetD lay "name" (.str "")
  let id ← pygetD lay "id" (.str "")
  let overnight ← pygetD lay "overnight" (.bool false)
  pure (.obj [
    ("duration", .str dur_s), ("name", name), ("id", id), ("overnight", overnight)])

/-- The airline-name derivation of source lines 99-101. -/
def airlineName (flight : Json) : Except String Json := do
  let fl ← pygetD flight "flights" .null
  if truthy fl then do
    let n ← pyLen fl
    if 0 < n then do
      let first ← pyIndex0 fl
      pygetD first "airline" (.str "Unknown Airline")
    else pure (.str "Unknown Airline")
  else pure (.str "Unknown Airline")

/-- Python `f"${price:,.0f}"`, applied only when `price` is truthy: raises
unless the value is numeric (a bool formats as its integer value). -/
def priceFormatted (price : Json) : Except String Json :=
  if truthy price then
    match price with
    | .num n => .ok (.str ("$" ++ commaFmt n))
    | .bool _ => .ok (.str ("$" ++ commaFmt 1))
    | _ => .error "ValueError: unknown format code f"
  else .ok (.str "Price not available")

/-- One enhanced flight record (the loop body, source lines 97-180). -/
def enhanceFlight (parse : String → Option String) (flight : Json)
    (source destination departure_date : String) (return_date : Option String) :
    Except String Json := do
  let airline_name ← airlineName flight
  let price ← pygetD flight "price" (.num 0)
  let price_fmt ← priceFormatted price
  let duration_minutes ← pygetD flight "total_duration" (.num 0)
  let duration_fmt ← pyFormatDuration duration_minutes
  let booking_link := generate_booking_link flight source destination
    departure_date return_date
  let segsJ ← pygetD flight "flights" (.arr [])
  let segList ← pyIter segsJ
  let segments ← exMapM (enhanceSegment parse) segList
  let laysJ ← pygetD flight "layovers" (.arr [])
  let layList ← pyIter laysJ
  let layovers ← exMapM enhanceLayover layList
  let dep_token ← pygetD flight "departure_token" (.str "")
  let book_token ← pygetD flight "booking_token" (.str "")
  let ftype ← pygetD flight "type" (.str "")
  let logo ← pygetD flight "airline_logo" (.str "")
  let extensions ← pygetD flight "extensions" (.arr [])
  let carbon ← pygetD flight "carbon_emissions" (.obj [])
  let dep_token2 ← pygetD flight "departure_token" .null
  pure (.obj [
    ("airline", airline_name),
    ("price", price),
    ("price_formatted", price_fmt),
    ("total_duration", duration_minutes),
    ("duration_formatted", .str duration_fmt),
    ("stops", .num layovers.length),
    ("departure_token", dep_token),
    ("booking_token", book_token),
    ("type", ftype),
    ("airline_logo", logo),
    ("extensions", extensions),
    ("carbon_emissions", carbon),
    ("flights", .arr segments),
    ("layovers", .arr layovers),
    ("booking_link", .str booking_link),
    ("booking_info", .obj [
      ("can_book", .bool true),
      ("booking_method",
        .str (if truthy dep_token2 then "google_travel" else "airline_website")),
      ("price_currency", .str "USD"),
      ("booking_notes", .str "Click the booking link to proceed with ticket purchase")])])

/-- Source lines 91-95: take `best_flights`, falling back to `other_flights`
when the former is falsy. -/
def selectFlightList (flight_data : Json) : Except String Json := do
  let best ← pygetD flight_data "best_flights" (.arr [])
  if truthy best then pure best
  else pygetD flight_data "other_flights" (.arr [])

/-- Everything inside the `try` of process_flight_data that can raise:
the loop over the selected list, the sort, the truncation to 5, and the
price-insights read.  Returns the truncated flight list and the insights. -/
def processCore (parse : String → Option String) (flight_data : Json)
    (source destination departure_date : String) (return_date : Option String) :
    Except String (List Json × Json) := do
  let sel ← selectFlightList flight_data
  let rawList ← pyIter sel
  let flights ← exMapM
    (fun f => enhanceFlight parse f source destination departure_date return_date)
    rawList
  let sorted ← pySortByPrice flights
  let insights ← pygetD flight_data "price_insights" (.obj [])
  pure (sorted.take 5, insights)

/-- The echoed search_params block (currency hard-coded to "USD"). -/
def mkSearchParams (source destination departure_date : String)
    (return_date : Option String) : Json :=
  .obj [("source", .str source), ("destination", .str destination),
    ("departure_date", .str departure_date), ("return_date", optStr return_date),
    ("currency", .str "USD")]

/-- The success dict of process_flight_data (source lines 191-205). -/
def mkProcessSuccess (top : List Json) (insights : Json)
    (source destination departure_date : String) (return_date : Option String)
    (now : String) : Json :=
  .obj [
    ("success", .bool true),
    ("flights", .arr top),
    ("search_params", mkSearchParams source destination departure_date return_date),
    ("total_flights", .num top.length),
    ("search_timestamp", .str now),
    ("price_insights", insights),
    ("booking_instructions", .str ("Click on any booking link to proceed with " ++
      "ticket purchase. Links will redirect to Google Travel or airline " ++
      "websites for booking."))]

/-- The failure dict of process_flight_data (source lines 207-222). -/
def mkProcessError (e : String) (source destination departure_date : String)
    (return_date : Option String) (now : String) : Json :=
  .obj [
    ("success", .bool false),
    ("error", .str ("Error processing flight data: " ++ e)),
    ("flights", .arr []),
    ("search_params", mkSearchParams source destination departure_date return_date),
    ("total_flights", .num 0),
    ("search_timestamp", .str now)]

/-- process_flight_data: the normalizer.  Total — a raised exception inside
the body becomes the structured failure dict. -/
def process_flight_data (parse : String → Option String) (flight_data : Json)
    (source destination departure_date : String) (return_date : Option String)
    (now : String) : Json :=
  match processCore parse flight_data source destination departure_date return_date with
  | .ok (top, insights) =>
    mkProcessSuccess top insights source destination departure_date return_date now
  | .error e => mkProcessError e source destination departure_date return_date now

/-! ### The three request handlers (src/flight_search_mcp.py lines 345-718)

The upstream HTTP round trip (`requests.get` + `response.raise_for_status()`
+ `response.json()`) is a `net : Params → NetResult` oracle: `.success body`
is a decoded JSON body, `.requestError` a raised `requests.RequestException`,
`.otherError` any other exception raised while obtaining the body.  Each
handler returns its response dict together with the list of upstream requests
it issued.  The MCP `ctx` collaborator is taken to be present and non-raising
(its `ctx.info`/`ctx.error` calls carry no business logic). -/

inductive NetResult where
  | success (body : Json)
  | requestError (msg : String)
  | otherError (msg : String)

abbrev Params := List (String × String)

/-- Source lines 404-419: the upstream query of search_flights. -/
def sfParams (source destination departure_date : String)
    (return_date : Option String) (currency serpapi_key : String) : Params :=
  let base := [("engine", "google_flights"),
    ("departure_id", source.toUpper), ("arrival_id", destination.toUpper),
    ("outbound_date", departure_date), ("currency", currency),
    ("hl", "en"), ("api_key", serpapi_key)]
  if retTruthy return_date then
    base ++ [("return_date", return_date.getD ""), ("type", "1")]
  else base ++ [("type", "2")]

def mkValidationErr : Json :=
  .obj [("success", .bool false),
    ("error", .str ("Missing required parameters: source, destination, " ++
      "and departure_date are required.")),
    ("flights", .arr [])]

/-- The configuration-error dict; `resultKey` is the endpoint's empty result
list ("flights" / "airports" / "price_trends"). -/
def mkConfigErr (resultKey : String) : Json :=
  .obj [("success", .bool false),
    ("error", .str ("SerpAPI key not configured. Please set SERPAPI_KEY " ++
      "environment variable.")),
    (resultKey, .arr [])]

def mkSerpErr (ev : String) : Json :=
  .obj [("success", .bool false), ("error", .str ("SerpAPI error: " ++ ev)),
    ("flights", .arr [])]

/-- The search_params block echoed by search_flights error paths (currency as
passed, unlike the normalizer's hard-coded "USD"). -/
def sfSearchParams (source destination departure_date : String)
    (return_date : Option String) (currency : String) : Json :=
  .obj [("source", .str source), ("destination", .str destination),
    ("departure_date", .str departure_date), ("return_date", optStr return_date),
    ("currency", .str currency)]

def mkNoFlights (source destination departure_date : String)
    (return_date : Option String) (currency now : String) : Json :=
  .obj [("success", .bool false),
    ("error", .str ("No flights found for the specified route and dates. " ++
      "Please try different dates or airports.")),
    ("flights", .arr []),
    ("search_params", sfSearchParams source destination departure_date
      return_date currency),
    ("total_flights", .num 0),
    ("search_timestamp", .str now)]

def mkSfReqErr (m : String) (source destination departure_date : String)
    (return_date : Option String) (currency : String) : Json :=
  .obj [("success", .bool false), ("error", .str ("API request failed: " ++ m)),
    ("flights", .arr []),
    ("search_params", sfSearchParams source destination departure_date
      return_date currency)]

def mkSfGenErr (m : String) (source destination departure_date : String)
    (return_date : Option String) (currency : String) : Json :=
  .obj [("success", .bool false),
    ("error", .str ("Error searching flights: " ++ m)),
    ("flights", .arr []),
    ("search_params", sfSearchParams source destination departure_date
      return_date currency)]

/-- Source lines 432-465: what search_flights does with a decoded response
(still inside its `try`, so a raise here lands in the generic handler). -/
def sfAfterNet (parse : String → Option String) (results : Json)
    (source destination departure_date : String) (return_date : Option String)
    (currency now : String) : Except String Json := do
  let hasErr ← pyContains results "error"
  if hasErr then do
    let ev ← pyIndexKey results "error"
    pure (mkSerpErr (pyStr ev))
  else do
    let best ← pygetD results "best_flights" (.arr [])
    if truthy best then
      pure (process_flight_data parse results source destination
        departure_date return_date now)
    else pure (mkNoFlights source destination departure_date return_date
      currency now)

/-- search_flights (source lines 355-502): validation, configuration check,
one upstream call, dispatch on the decoded body.  Returns (response dict,
requests issued). -/
def search_flights (parse : String → Option String)
    (source destination departure_date : String) (return_date : Option String)
    (currency : String) (serpapi_key : Option String)
    (net : Params → NetResult) (now : String) : Json × List Params :=
  if source = "" ∨ destination = "" ∨ departure_date = "" then
    (mkValidationErr, [])
  else
    match serpapi_key with
    | none => (mkConfigErr "flights", [])
    | some key =>
      let ps := sfParams source destination departure_date return_date currency key
      match net ps with
      | .success results =>
        match sfAfterNet parse results source destination departure_date
            return_date currency now with
        | .ok j => (j, [ps])
        | .error e =>
          (mkSfGenErr e source destination departure_date return_date currency, [ps])
      | .requestError m =>
        (mkSfReqErr m source destination departure_date return_date currency, [ps])
      | .otherError m =>
        (mkSfGenErr m source destination departure_date return_date currency, [ps])

/-- Source lines 543-561: the request search_airports issues — the
google_flights probe iff the query is exactly 3 alphabetic characters, else
the annotated google web search.  Python's `str.isalpha()` is true iff the
string is non-empty and every character has the Unicode "alphabetic"
property; with the length-3 test, non-emptiness is automatic, so the method
is the per-character classifier `alpha`, a parameter because the Unicode
character database is an external table (Lean's `Char.isAlpha` is only its
ASCII restriction, instantiated for the ASCII witnesses below).  Likewise
`upper` stands for the Unicode-aware `str.upper()` (`String.toUpper` is its
ASCII restriction). -/
def airportParams (alpha : Char → Bool) (upper : String → String)
    (query serpapi_key : String) : Params :=
  if query.length = 3 ∧ query.data.all alpha then
    [("engine", "google_flights"), ("departure_id", upper query),
      ("arrival_id", ""), ("outbound_date", "2025-12-01"), ("currency", "USD"),
      ("hl", "en"), ("api_key", serpapi_key)]
  else
    [("engine", "google"),
      ("q", query ++ " airport IATA code information"),
      ("api_key", serpapi_key)]

def mkAirportsSuccess (results : Json) (query now : String) : Json :=
  .obj [("success", .bool true), ("serpapi_response", results),
    ("query", .str query), ("search_timestamp", .str now)]

def mkAirportsErr (m query : String) : Json :=
  .obj [("success", .bool false), ("error", .str m), ("airports", .arr []),
    ("query", .str query)]

/-- search_airports (source lines 515-602); `alpha` and `upper` are the
Unicode `str.isalpha` character test and `str.upper` (see airportParams). -/
def search_airports (alpha : Char → Bool) (upper : String → String)
    (query : String) (serpapi_key : Option String)
    (net : Params → NetResult) (now : String) : Json × List Params :=
  match serpapi_key with
  | none => (mkConfigErr "airports", [])
  | some key =>
    let ps := airportParams alpha upper query key
    match net ps with
    | .success results => (mkAirportsSuccess results query now, [ps])
    | .requestError m => (mkAirportsErr ("API request failed: " ++ m) query, [ps])
    | .otherError m =>
      (mkAirportsErr ("Error searching airports: " ++ m) query, [ps])

/-- Source lines 650-659: the upstream query of get_flight_prices. -/
def priceParams (source destination start_date end_date currency key : String) :
    Params :=
  [("engine", "google_flights"), ("departure_id", source.toUpper),
    ("arrival_id", destination.toUpper), ("outbound_date", start_date),
    ("return_date", end_date), ("currency", currency), ("hl", "en"),
    ("api_key", key)]

def gpSearchParams (source destination start_date end_date currency : String) :
    Json :=
  .obj [("source", .str source), ("destination", .str destination),
    ("start_date", .str start_date), ("end_date", .str end_date),
    ("currency", .str currency)]

def mkPricesSuccess (results : Json)
    (source destination start_date end_date currency now : String) : Json :=
  .obj [("success", .bool true), ("serpapi_response", results),
    ("search_params", gpSearchParams source destination start_date end_date
      currency),
    ("search_timestamp", .str now)]

def mkPricesErr (m source destination start_date end_date currency : String) :
    Json :=
  .obj [("success", .bool false), ("error", .str m), ("price_trends", .arr []),
    ("search_params", gpSearchParams source destination start_date end_date
      currency)]

/-- get_flight_prices (source lines 613-718). -/
def get_flight_prices (source destination start_date end_date currency : String)
    (serpapi_key : Option String) (net : Params → NetResult) (now : String) :
    Json × List Params :=
  match serpapi_key with
  | none => (mkConfigErr "price_trends", [])
  | some key =>
    let ps := priceParams source destination start_date end_date currency key
    match net ps with
    | .success results =>
      (mkPricesSuccess results source destination start_date end_date
        currency now, [ps])
    | .requestError m =>
      (mkPricesErr ("API request failed: " ++ m) source destination start_date
        end_date currency, [ps])
    | .otherError m =>
      (mkPricesErr ("Error getting flight prices: " ++ m) source destination
        start_date end_date currency, [ps])

/-! ### Claim theorems -/

/-- A concrete stand-in for the datetime parser in closed statements: the
library call always failing. -/
def noParse : String → Option String := fun _ => none

/-- A concrete upstream oracle returning an empty JSON object. -/
def netEmpty : Params → NetResult := fun _ => .success (.obj [])

/-- C5: format_time is total: "" yields "Unknown"; a string containing "|" is
returned unchanged; a string containing "T" is parsed (after replacing "Z"
with "+00:00") and reformatted, falling back to the input when the parse
fails; any other string is returned unchanged. -/
theorem claim_c5_format_time (parse : String → Option String) (s : String) :
    format_time parse "" = "Unknown" ∧
    (s ≠ "" → strContains s '|' = true → format_time parse s = s) ∧
    (s ≠ "" → strContains s '|' = false → strContains s 'T' = true →
      format_time parse s =
        match parse (s.replace "Z" "+00:00") with
        | some formatted => formatted
        | none => s) ∧
    (s ≠ "" → strContains s '|' = false → strContains s 'T' = false →
      format_time parse s = s) := by
  refine ⟨rfl, ?_, ?_, ?_⟩
  · intro h1 h2
    simp [format_time, h1, h2]
  · intro h1 h2 h3
    simp [format_time, h1, h2, h3]
  · intro h1 h2 h3
    simp [format_time, h1, h2, h3]

theorem claim_c5_witness :
    format_time noParse "" = "Unknown" ∧
    format_time noParse "Mar-06, 2025 | 6:20 PM" = "Mar-06, 2025 | 6:20 PM" ∧
    format_time noParse "2025-03-06T18:20:00Z" = "2025-03-06T18:20:00Z" ∧
    format_time noParse "hello" = "hello" :=
  ⟨(claim_c5_format_time noParse "x").1,
   (claim_c5_format_time noParse "Mar-06, 2025 | 6:20 PM").2.1 (by decide) (by decide),
   (claim_c5_format_time noParse "2025-03-06T18:20:00Z").2.2.1 (by decide)
     (by decide) (by decide),
   (claim_c5_format_time noParse "hello").2.2.2 (by decide) (by decide) (by decide)⟩

/-- C6: for every integer m ≥ 1, parsing the hours and minutes back out of
format_duration(m) recovers m; m = 0 is the defined "Unknown" special case. -/
theorem claim_c6_duration_roundtrip :
    (∀ m : Int, 1 ≤ m → parse_duration (format_duration m) = some m) ∧
    format_duration 0 = "Unknown" :=
  ⟨parse_format_duration, rfl⟩

theorem claim_c6_witness :
    parse_duration (format_duration 61) = some 61 ∧
    parse_duration (format_duration 120) = some 120 ∧
    parse_duration (format_duration 59) = some 59 ∧
    format_duration 0 = "Unknown" :=
  ⟨claim_c6_duration_roundtrip.1 61 (by norm_num),
   claim_c6_duration_roundtrip.1 120 (by norm_num),
   claim_c6_duration_roundtrip.1 59 (by norm_num),
   claim_c6_duration_roundtrip.2⟩

/-- C7: empty source/destination/departure_date makes search_flights return
the validation-error object with no upstream request; with all three present
but no API key it returns the configuration-error object, again with no
upstream request.  (The second component of the handler's result is the list
of requests issued.) -/
theorem claim_c7_fail_fast (parse : String → Option String)
    (src dst dep : String) (ret : Option String) (cur : String)
    (key : Option String) (net : Params → NetResult) (now : String) :
    ((src = "" ∨ dst = "" ∨ dep = "") →
      search_flights parse src dst dep ret cur key net now = (mkValidationErr, [])) ∧
    (src ≠ "" → dst ≠ "" → dep ≠ "" →
      search_flights parse src dst dep ret cur none net now =
        (mkConfigErr "flights", [])) ∧
    jget mkValidationErr "success" = some (.bool false) ∧
    jget mkValidationErr "error" = some (.str ("Missing required parameters: " ++
      "source, destination, and departure_date are required.")) ∧
    jget mkValidationErr "flights" = some (.arr []) ∧
    jget (mkConfigErr "flights") "success" = some (.bool false) ∧
    jget (mkConfigErr "flights") "error" = some (.str ("SerpAPI key not " ++
      "configured. Please set SERPAPI_KEY environment variable.")) ∧
    jget (mkConfigErr "flights") "flights" = some (.arr []) := by
  refine ⟨?_, ?_, rfl, rfl, rfl, rfl, rfl, rfl⟩
  · intro h
    simp [search_flights, h]
  · intro h1 h2 h3
    simp [search_flights, h1, h2, h3]

theorem claim_c7_witness :
    search_flights noParse "" "LAX" "2025-03-06" none "USD" (some "k") netEmpty
      "ts" = (mkValidationErr, []) ∧
    search_flights noParse "JFK" "LAX" "2025-03-06" none "USD" none netEmpty
      "ts" = (mkConfigErr "flights", []) :=
  ⟨(claim_c7_fail_fast noParse "" "LAX" "2025-03-06" none "USD" (some "k")
      netEmpty "ts").1 (Or.inl rfl),
   (claim_c7_fail_fast noParse "JFK" "LAX" "2025-03-06" none "USD" none
      netEmpty "ts").2.1 (by decide) (by decide) (by decide)⟩

/-- C8: search_airports issues exactly one upstream request; for every
character classifier `alpha` (standing for Python's Unicode-aware
`str.isalpha` test, see airportParams) and uppercase transform `upper`, that
request is the google_flights probe (uppercased query as departure id) iff
the query is exactly 3 characters all satisfying `alpha`, and otherwise the
google web search whose query text is the input annotated with "airport IATA
code information".  Instantiating `alpha`/`upper` at the genuine Unicode
tables yields the source's behaviour on every query, ASCII or not. -/
theorem claim_c8_airport_routing (alpha : Char → Bool)
    (upper : String → String) (query serpapi_key : String)
    (net : Params → NetResult) (now : String) :
    (search_airports alpha upper query (some serpapi_key) net now).2 =
      [airportParams alpha upper query serpapi_key] ∧
    (query.length = 3 ∧ query.data.all alpha →
      airportParams alpha upper query serpapi_key =
        [("engine", "google_flights"), ("departure_id", upper query),
         ("arrival_id", ""), ("outbound_date", "2025-12-01"),
         ("currency", "USD"), ("hl", "en"), ("api_key", serpapi_key)]) ∧
    (¬(query.length = 3 ∧ query.data.all alpha) →
      airportParams alpha upper query serpapi_key =
        [("engine", "google"),
         ("q", query ++ " airport IATA code information"),
         ("api_key", serpapi_key)]) := by
  refine ⟨?_, ?_, ?_⟩
  · cases h : net (airportParams alpha upper query serpapi_key) <;>
      simp [search_airports, h]
  · intro h
    rw [airportParams, if_pos h]
  · intro h
    rw [airportParams, if_neg h]

/-- A classifier extending ASCII letters with the Cyrillic letter block
(U+0410 to U+044F), used only to witness the theorem at a non-ASCII
alphabetic query, where Python's `str.isalpha` is also true. -/
def cyrillicAlpha (c : Char) : Bool :=
  c.isAlpha || (0x410 ≤ c.toNat && c.toNat ≤ 0x44F)

/-- Witnesses at the ASCII instantiation (where `Char.isAlpha` and
`String.toUpper` agree with Python), plus a branch check at a classifier
that, like Python's, accepts the non-ASCII letters of the 3-character query
"мос": the probe branch is then taken exactly as in the source. -/
theorem claim_c8_witness :
    airportParams Char.isAlpha String.toUpper "LAX" "k" =
      [("engine", "google_flights"), ("departure_id", "LAX".toUpper),
       ("arrival_id", ""), ("outbound_date", "2025-12-01"),
       ("currency", "USD"), ("hl", "en"), ("api_key", "k")] ∧
    airportParams Char.isAlpha String.toUpper "Los Angeles airport" "k" =
      [("engine", "google"),
       ("q", "Los Angeles airport" ++ " airport IATA code information"),
       ("api_key", "k")] ∧
    (search_airports Char.isAlpha String.toUpper "LAX" (some "k") netEmpty
      "ts").2 = [airportParams Char.isAlpha String.toUpper "LAX" "k"] ∧
    airportParams cyrillicAlpha String.toUpper "мос" "k" =
      [("engine", "google_flights"), ("departure_id", String.toUpper "мос"),
       ("arrival_id", ""), ("outbound_date", "2025-12-01"),
       ("currency", "USD"), ("hl", "en"), ("api_key", "k")] :=
  ⟨(claim_c8_airport_routing Char.isAlpha String.toUpper "LAX" "k" netEmpty
      "ts").2.1 ⟨rfl, by decide⟩,
   (claim_c8_airport_routing Char.isAlpha String.toUpper "Los Angeles airport"
      "k" netEmpty "ts").2.2 (by intro h; exact absurd h.1 (by decide)),
   (claim_c8_airport_routing Char.isAlpha String.toUpper "LAX" "k" netEmpty
      "ts").1,
   (claim_c8_airport_routing cyrillicAlpha String.toUpper "мос" "k" netEmpty
      "ts").2.1 ⟨rfl, by decide⟩⟩

/-- C9: the normalizer processes best_flights when non-empty (other_flights
is then irrelevant), falls back to other_flights when best_flights is empty,
and on two empty lists returns success=true with no flights and
total_flights = 0. -/
theorem claim_c9_list_selection (parse : String → Option String)
    (src dst dep : String) (ret : Option String) (now : String)
    (bs : List Json) (os : Json) :
    (bs ≠ [] →
      process_flight_data parse
        (.obj [("best_flights", .arr bs), ("other_flights", os)])
        src dst dep ret now =
      process_flight_data parse (.obj [("best_flights", .arr bs)])
        src dst dep ret now) ∧
    (∀ osl : List Json,
      process_flight_data parse
        (.obj [("best_flights", .arr []), ("other_flights", .arr osl)])
        src dst dep ret now =
      process_flight_data parse (.obj [("best_flights", .arr osl)])
        src dst dep ret now) ∧
    (jget (process_flight_data parse
        (.obj [("best_flights", .arr []), ("other_flights", .arr [])])
        src dst dep ret now) "success" = some (.bool true) ∧
     jget (process_flight_data parse
        (.obj [("best_flights", .arr []), ("other_flights", .arr [])])
        src dst dep ret now) "flights" = some (.arr []) ∧
     jget (process_flight_data parse
        (.obj [("best_flights", .arr []), ("other_flights", .arr [])])
        src dst dep ret now) "total_flights" = some (.num 0)) := by
  refine ⟨?_, ?_, rfl, rfl, rfl⟩
  · intro h
    cases bs with
    | nil => exact absurd rfl h
    | cons x l => rfl
  · intro osl
    cases osl with
    | nil => rfl
    | cons x l => rfl

theorem claim_c9_witness :
    process_flight_data noParse
      (.obj [("best_flights", .arr [.obj []]), ("other_flights", .arr [.num 5])])
      "JFK" "LAX" "2025-03-06" none "ts" =
    process_flight_data noParse (.obj [("best_flights", .arr [.obj []])])
      "JFK" "LAX" "2025-03-06" none "ts" ∧
    process_flight_data noParse
      (.obj [("best_flights", .arr []), ("other_flights", .arr [.obj []])])
      "JFK" "LAX" "2025-03-06" none "ts" =
    process_flight_data noParse (.obj [("best_flights", .arr [.obj []])])
      "JFK" "LAX" "2025-03-06" none "ts" :=
  ⟨(claim_c9_list_selection noParse "JFK" "LAX" "2025-03-06" none "ts"
      [.obj []] (.arr [.num 5])).1 (List.cons_ne_nil _ _),
   (claim_c9_list_selection noParse "JFK" "LAX" "2025-03-06" none "ts"
      [] .null).2.1 [.obj []]⟩

/-- C3: process_flight_data is total and always yields one of two structured
shapes — a success dict, or a failure dict with success=false, an error
message prefixed "Error processing flight data: ", an empty flight list, the
echoed query parameters and a zero count.  (Raised exceptions inside the body
are `Except.error` values of `processCore`; the match in process_flight_data
is the source's catch-all, so no error escapes.) -/
theorem claim_c3_normalizer_never_raises (parse : String → Option String)
    (fd : Json) (src dst dep : String) (ret : Option String) (now : String) :
    jget (process_flight_data parse fd src dst dep ret now) "success" =
      some (.bool true) ∨
    (jget (process_flight_data parse fd src dst dep ret now) "success" =
      some (.bool false) ∧
     (∃ m, jget (process_flight_data parse fd src dst dep ret now) "error" =
       some (.str ("Error processing flight data: " ++ m))) ∧
     jget (process_flight_data parse fd src dst dep ret now) "flights" =
       some (.arr []) ∧
     jget (process_flight_data parse fd src dst dep ret now) "search_params" =
       some (mkSearchParams src dst dep ret) ∧
     jget (process_flight_data parse fd src dst dep ret now) "total_flights" =
       some (.num 0)) := by
  cases h : processCore parse fd src dst dep ret with
  | ok pr =>
    obtain ⟨top, ins⟩ := pr
    left
    simp [process_flight_data, h, mkProcessSuccess, jget, lookupField]
  | error e =>
    right
    refine ⟨?_, ⟨e, ?_⟩, ?_, ?_, ?_⟩ <;>
      simp [process_flight_data, h, mkProcessError, jget, lookupField]

theorem claim_c3_witness :
    jget (process_flight_data noParse (.num 7) "JFK" "LAX" "2025-03-06" none
      "ts") "success" = some (.bool true) ∨
    (jget (process_flight_data noParse (.num 7) "JFK" "LAX" "2025-03-06" none
      "ts") "success" = some (.bool false) ∧
     (∃ m, jget (process_flight_data noParse (.num 7) "JFK" "LAX" "2025-03-06"
       none "ts") "error" =
       some (.str ("Error processing flight data: " ++ m))) ∧
     jget (process_flight_data noParse (.num 7) "JFK" "LAX" "2025-03-06" none
       "ts") "flights" = some (.arr []) ∧
     jget (process_flight_data noParse (.num 7) "JFK" "LAX" "2025-03-06" none
       "ts") "search_params" =
       some (mkSearchParams "JFK" "LAX" "2025-03-06" none) ∧
     jget (process_flight_data noParse (.num 7) "JFK" "LAX" "2025-03-06" none
       "ts") "total_flights" = some (.num 0)) :=
  claim_c3_normalizer_never_raises noParse (.num 7) "JFK" "LAX" "2025-03-06"
    none "ts"

/-- C10: for an error-free vendor body whose best_flights is falsy (in
particular empty), search_flights returns the "no flights found" error object
— even when other_flights is a non-empty list — so the normalizer (and its
other_flights fallback) is never invoked by this handler. -/
theorem claim_c10_fallback_unreachable (parse : String → Option String)
    (src dst dep : String) (ret : Option String) (cur key : String)
    (net : Params → NetResult) (now : String) (results bf : Json)
    (osl : List Json)
    (hsrc : src ≠ "") (hdst : dst ≠ "") (hdep : dep ≠ "")
    (hnet : net (sfParams src dst dep ret cur key) = .success results)
    (hcont : pyContains results "error" = .ok false)
    (hbf : pygetD results "best_flights" (.arr []) = .ok bf)
    (htr : truthy bf = false)
    (hos : jget results "other_flights" = some (.arr osl)) :
    search_flights parse src dst dep ret cur (some key) net now =
      (mkNoFlights src dst dep ret cur now,
       [sfParams src dst dep ret cur key]) := by
  have hafter : sfAfterNet parse results src dst dep ret cur now =
      .ok (mkNoFlights src dst dep ret cur now) := by
    simp [sfAfterNet, hcont, ok_bind, hbf, htr, pure, Except.pure]
  rw [search_flights, if_neg (by simp [hsrc, hdst, hdep])]
  simp only [hnet, hafter]

def c10Net : Params → NetResult := fun _ =>
  .success (.obj [("best_flights", .arr []), ("other_flights", .arr [.obj []])])

theorem claim_c10_witness :
    search_flights noParse "JFK" "LAX" "2025-03-06" none "USD" (some "k")
      c10Net "ts" =
    (mkNoFlights "JFK" "LAX" "2025-03-06" none "USD" "ts",
     [sfParams "JFK" "LAX" "2025-03-06" none "USD" "k"]) :=
  claim_c10_fallback_unreachable noParse "JFK" "LAX" "2025-03-06" none "USD"
    "k" c10Net "ts"
    (.obj [("best_flights", .arr []), ("other_flights", .arr [.obj []])])
    (.arr []) [.obj []]
    (by decide) (by decide) (by decide) rfl rfl rfl rfl rfl

theorem chain'_take {α : Type} (R : α → α → Prop) :
    ∀ (l : List α) (n : Nat), List.Chain' R l → List.Chain' R (l.take n) := by
  intro l
  induction l with
  | nil => intro n _; simp
  | cons a l2 ih =>
    intro n hchain
    cases n with
    | zero => simp
    | succ m =>
      simp only [List.take_succ_cons]
      have h1 := List.chain'_cons'.1 hchain
      refine List.chain'_cons'.2 ⟨?_, ih m h1.2⟩
      intro z hz
      apply h1.1
      cases l2 with
      | nil => simp at hz
      | cons b l3 =>
        cases m with
        | zero => simp at hz
        | succ m2 =>
          simp only [List.take_succ_cons, List.head?_cons] at hz ⊢
          exact hz

theorem enhanceFlight_price (parse : String → Option String) (raw : Json)
    (src dst dep : String) (ret : Option String) (e : Json)
    (h : enhanceFlight parse raw src dst dep ret = .ok e) :
    ∃ price, pygetD raw "price" (.num 0) = .ok price ∧
      jget e "price" = some price := by
  simp only [enhanceFlight, bind_ok_iff] at h
  obtain ⟨a, _, price, hp, pf, _, dm, _, df, _, segsJ, _, segL, _, segs, _,
    laysJ, _, layL, _, lays, _, dtk, _, btk, _, ty, _, lg, _, ex, _, cb, _,
    dt2, _, hpure⟩ := h
  simp only [pure, Except.pure, Except.ok.injEq] at hpure
  subst hpure
  exact ⟨price, hp, by simp [jget, lookupField]⟩

/-- C1 (amended): every successful normalizer output has at most 5 flights
ordered non-decreasingly in the price sort key (for adjacent entries f, g
Python found `not (key g < key f)` or `key f < key g`; a missing "price" key
is the `float("inf")` default); and a raw record lacking a price field is
normalized with price 0 — it therefore sorts before positive prices, not
after all priced entries as the original claim states. -/
theorem claim_c1_amended :
    (∀ (parse : String → Option String) (fd : Json) (src dst dep : String)
      (ret : Option String) (now : String) (fl : List Json),
      jget (process_flight_data parse fd src dst dep ret now) "success" =
        some (.bool true) →
      jget (process_flight_data parse fd src dst dep ret now) "flights" =
        some (.arr fl) →
      fl.length ≤ 5 ∧
      List.Chain' (fun f g => keyLe (jget f "price") (jget g "price")) fl) ∧
    (∀ (parse : String → Option String) (raw : Json) (src dst dep : String)
      (ret : Option String) (e : Json),
      jget raw "price" = none →
      enhanceFlight parse raw src dst dep ret = .ok e →
      jget e "price" = some (.num 0)) := by
  constructor
  · intro parse fd src dst dep ret now fl hsucc hfl
    cases h : processCore parse fd src dst dep ret with
    | error e =>
      have hout : process_flight_data parse fd src dst dep ret now =
          mkProcessError e src dst dep ret now := by
        simp [process_flight_data, h]
      rw [hout] at hsucc
      simp [mkProcessError, jget, lookupField] at hsucc
    | ok pr =>
      obtain ⟨top, ins⟩ := pr
      have hout : process_flight_data parse fd src dst dep ret now =
          mkProcessSuccess top ins src dst dep ret now := by
        simp [process_flight_data, h]
      rw [hout] at hfl
      have htop : top = fl := by
        simpa [mkProcessSuccess, jget, lookupField] using hfl
      subst htop
      simp only [processCore, bind_ok_iff] at h
      obtain ⟨sel, hsel, rawList, hraw, flights, hfl2, sorted, hsort,
        insights, hins, hpure⟩ := h
      simp only [pure, Except.pure, Except.ok.injEq, Prod.mk.injEq] at hpure
      obtain ⟨htop2, hins2⟩ := hpure
      rw [← htop2]
      constructor
      · rw [List.length_take]
        exact min_le_left _ _
      · exact chain'_take _ sorted 5 (pySortByPrice_ok flights sorted hsort).1
  · intro parse raw src dst dep ret e hmiss h
    obtain ⟨price, hp, hkey⟩ := enhanceFlight_price parse raw src dst dep ret e h
    cases raw with
    | obj fs =>
      simp only [jget] at hmiss
      simp only [pygetD, hmiss, Option.getD_none, Except.ok.injEq] at hp
      rw [hkey, ← hp]
    | null => simp [pygetD] at hp
    | bool b => simp [pygetD] at hp
    | num n => simp [pygetD] at hp
    | str s => simp [pygetD] at hp
    | arr xs => simp [pygetD] at hp

/-- The counterexample input: one raw flight with price 100 and one raw
flight with no price field at all. -/
def c1Input : Json :=
  .obj [("best_flights", .arr [.obj [("price", .num 100)], .obj []])]

/-- The flight list the normalizer produces for `c1Input`. -/
def c1Flights : List Json :=
  match jget (process_flight_data noParse c1Input "JFK" "LAX" "2025-03-06"
    none "ts") "flights" with
  | some (.arr l) => l
  | _ => []

/-- C1 counterexample: on `c1Input` the normalizer succeeds and places the
flight whose raw record LACKS a price (normalized price 0, formatted "Price
not available") FIRST, before the flight priced 100 — priced entries do not
all precede unpriced ones. -/
theorem claim_c1_counterexample :
    jget (process_flight_data noParse c1Input "JFK" "LAX" "2025-03-06" none
      "ts") "success" = some (.bool true) ∧
    c1Flights.map (fun f => jget f "price") = [some (.num 0), some (.num 100)] ∧
    c1Flights.map (fun f => jget f "price_formatted") =
      [some (.str "Price not available"), some (.str "$100")] :=
  ⟨rfl, rfl, rfl⟩

theorem claim_c1_witness :
    (c1Flights.length ≤ 5 ∧
     List.Chain' (fun f g => keyLe (jget f "price") (jget g "price"))
       c1Flights) ∧
    (∀ e : Json, enhanceFlight noParse (.obj []) "JFK" "LAX" "2025-03-06"
      none = .ok e → jget e "price" = some (.num 0)) :=
  ⟨claim_c1_amended.1 noParse c1Input "JFK" "LAX" "2025-03-06" none "ts"
     c1Flights rfl rfl,
   fun e he => claim_c1_amended.2 noParse (.obj []) "JFK" "LAX" "2025-03-06"
     none e rfl he⟩

theorem append_ne_empty (s t : String) (h : s ≠ "") : s ++ t ≠ "" := by
  intro he
  apply h
  have hlen := congrArg String.length he
  rw [String.length_append] at hlen
  have h0 : s.length = 0 := by
    have : ("" : String).length = 0 := rfl
    omega
  cases s with
  | mk data =>
    have hd : data = [] := List.length_eq_zero.1 h0
    subst hd
    rfl

theorem generate_eq_of_body_ok (fd : Json) (src dst dep : String)
    (ret : Option String) (url : String)
    (h : gblBody fd src dst dep ret = .ok url) :
    generate_booking_link fd src dst dep ret = url := by
  simp [generate_booking_link, h]

theorem generate_eq_of_body_error (fd : Json) (src dst dep : String)
    (ret : Option String) (e : String)
    (h : gblBody fd src dst dep ret = .error e) :
    generate_booking_link fd src dst dep ret = gblFallback src dst dep ret := by
  simp [generate_booking_link, h]

theorem gblMethod3_ne_empty (src dst dep : String) (ret : Option String) :
    gblMethod3 src dst dep ret ≠ "" := by
  rw [gblMethod3]
  apply append_ne_empty
  decide

theorem gblFallback_ne_empty (src dst dep : String) (ret : Option String) :
    gblFallback src dst dep ret ≠ "" := by
  rw [gblFallback]
  split <;>
    (repeat' apply append_ne_empty) <;> decide

/-- C4: generate_booking_link always yields a non-empty URL and never reports
an error; a truthy booking_token wins, else a truthy departure_token, else
the synthesized Google Flights URL (and, when the record is not even a dict,
the `except` fallback URL — also a generic search URL built only from
source/destination/dates). -/
theorem claim_c4_booking_link (fd : Json) (src dst dep : String)
    (ret : Option String) :
    generate_booking_link fd src dst dep ret ≠ "" ∧
    (∀ bt, pygetD fd "booking_token" .null = .ok bt → truthy bt = true →
      generate_booking_link fd src dst dep ret =
        "https://www.google.com/travel/flights?tfs=" ++ pyStr bt) ∧
    (∀ bt dt, pygetD fd "booking_token" .null = .ok bt → truthy bt = false →
      pygetD fd "departure_token" .null = .ok dt → truthy dt = true →
      generate_booking_link fd src dst dep ret =
        "https://www.google.com/travel/flights?tfs=" ++ pyStr dt) ∧
    (∀ bt dt, pygetD fd "booking_token" .null = .ok bt → truthy bt = false →
      pygetD fd "departure_token" .null = .ok dt → truthy dt = false →
      generate_booking_link fd src dst dep ret = gblMethod3 src dst dep ret) ∧
    ((∀ fs, fd ≠ .obj fs) →
      generate_booking_link fd src dst dep ret = gblFallback src dst dep ret) := by
  refine ⟨?_, ?_, ?_, ?_, ?_⟩
  · cases hb : pygetD fd "booking_token" .null with
    | error e =>
      rw [generate_eq_of_body_error fd src dst dep ret e
        (by simp [gblBody, hb, error_bind])]
      exact gblFallback_ne_empty src dst dep ret
    | ok bt =>
      cases htr : truthy bt with
      | true =>
        rw [generate_eq_of_body_ok fd src dst dep ret
          ("https://www.google.com/travel/flights?tfs=" ++ pyStr bt)
          (by simp [gblBody, hb, ok_bind, htr, pure, Except.pure])]
        apply append_ne_empty
        decide
      | false =>
        cases hd : pygetD fd "departure_token" .null with
        | error e =>
          rw [generate_eq_of_body_error fd src dst dep ret e
            (by simp [gblBody, hb, ok_bind, htr, hd, error_bind])]
          exact gblFallback_ne_empty src dst dep ret
        | ok dt =>
          cases hdt : truthy dt with
          | true =>
            rw [generate_eq_of_body_ok fd src dst dep ret
              ("https://www.google.com/travel/flights?tfs=" ++ pyStr dt)
              (by simp [gblBody, hb, ok_bind, htr, hd, hdt, pure, Except.pure])]
            apply append_ne_empty
            decide
          | false =>
            rw [generate_eq_of_body_ok fd src dst dep ret
              (gblMethod3 src dst dep ret)
              (by simp [gblBody, hb, ok_bind, htr, hd, hdt, pure, Except.pure])]
            exact gblMethod3_ne_empty src dst dep ret
  · intro bt hb htr
    exact generate_eq_of_body_ok fd src dst dep ret _
      (by simp [gblBody, hb, ok_bind, htr, pure, Except.pure])
  · intro bt dt hb htr hd hdt
    exact generate_eq_of_body_ok fd src dst dep ret _
      (by simp [gblBody, hb, ok_bind, htr, hd, hdt, pure, Except.pure])
  · intro bt dt hb htr hd hdt
    exact generate_eq_of_body_ok fd src dst dep ret _
      (by simp [gblBody, hb, ok_bind, htr, hd, hdt, pure, Except.pure])
  · intro hobj
    have hb : pygetD fd "booking_token" .null = .error "AttributeError: get" := by
      cases fd with
      | obj fs => exact absurd rfl (hobj fs)
      | null => rfl
      | bool b => rfl
      | num n => rfl
      | str s => rfl
      | arr xs => rfl
    exact generate_eq_of_body_error fd src dst dep ret "AttributeError: get"
      (by simp [gblBody, hb, error_bind])

theorem claim_c4_witness :
    generate_booking_link (.obj [("booking_token", .str "TOK1")]) "JFK" "LAX"
      "2025-03-06" none =
      "https://www.google.com/travel/flights?tfs=" ++ pyStr (.str "TOK1") ∧
    generate_booking_link (.obj [("departure_token", .str "DTOK")]) "JFK" "LAX"
      "2025-03-06" none =
      "https://www.google.com/travel/flights?tfs=" ++ pyStr (.str "DTOK") ∧
    generate_booking_link (.obj []) "JFK" "LAX" "2025-03-06" none =
      gblMethod3 "JFK" "LAX" "2025-03-06" none ∧
    generate_booking_link (.num 0) "JFK" "LAX" "2025-03-06" none =
      gblFallback "JFK" "LAX" "2025-03-06" none ∧
    generate_booking_link (.obj []) "JFK" "LAX" "2025-03-06" none ≠ "" :=
  ⟨(claim_c4_booking_link (.obj [("booking_token", .str "TOK1")]) "JFK" "LAX"
      "2025-03-06" none).2.1 (.str "TOK1") rfl rfl,
   (claim_c4_booking_link (.obj [("departure_token", .str "DTOK")]) "JFK" "LAX"
      "2025-03-06" none).2.2.1 .null (.str "DTOK") rfl rfl rfl rfl,
   (claim_c4_booking_link (.obj []) "JFK" "LAX" "2025-03-06" none).2.2.2.1
     .null .null rfl rfl rfl rfl,
   (claim_c4_booking_link (.num 0) "JFK" "LAX" "2025-03-06" none).2.2.2.2
     (fun fs h => Json.noConfusion h),
   (claim_c4_booking_link (.obj []) "JFK" "LAX" "2025-03-06" none).1⟩

theorem map_ok_iff {α β : Type} (f : α → β) (x : Except String α) (c : β) :
    (f <$> x) = .ok c ↔ ∃ a, x = .ok a ∧ f a = c := by
  cases x with
  | ok a => simp [Functor.map, Except.map]
  | error e => simp [Functor.map, Except.map]

theorem sfAfterNet_ok_cases (parse : String → Option String) (results : Json)
    (src dst dep : String) (ret : Option String) (cur now : String) (j : Json)
    (h : sfAfterNet parse results src dst dep ret cur now = .ok j) :
    (∃ ev, j = mkSerpErr ev) ∨
    j = process_flight_data parse results src dst dep ret now ∨
    j = mkNoFlights src dst dep ret cur now := by
  simp only [sfAfterNet, bind_ok_iff] at h
  obtain ⟨b, hb, h2⟩ := h
  cases b with
  | true =>
    rw [if_pos rfl] at h2
    simp only [bind_ok_iff] at h2
    obtain ⟨ev, hev, h3⟩ := h2
    simp only [pure, Except.pure, Except.ok.injEq] at h3
    exact Or.inl ⟨pyStr ev, h3.symm⟩
  | false =>
    rw [if_neg (by simp)] at h2
    simp only [bind_ok_iff] at h2
    obtain ⟨best, hbest, h3⟩ := h2
    by_cases htr : truthy best = true
    · rw [if_pos htr] at h3
      simp only [pure, Except.pure, Except.ok.injEq] at h3
      exact Or.inr (Or.inl h3.symm)
    · rw [if_neg htr] at h3
      simp only [pure, Except.pure, Except.ok.injEq] at h3
      exact Or.inr (Or.inr h3.symm)

theorem sf_resp_fields (parse : String → Option String)
    (src dst dep : String) (ret : Option String) (cur : String)
    (key : Option String) (net : Params → NetResult) (now : String) :
    hasKey (search_flights parse src dst dep ret cur key net now).1 "success"
      = true ∧
    hasKey (search_flights parse src dst dep ret cur key net now).1 "flights"
      = true ∧
    (hasKey (search_flights parse src dst dep ret cur key net now).1 "error"
      = true ↔
     jget (search_flights parse src dst dep ret cur key net now).1 "success"
      = some (.bool false)) := by
  by_cases hval : src = "" ∨ dst = "" ∨ dep = ""
  · have hr : (search_flights parse src dst dep ret cur key net now).1 =
        mkValidationErr := by simp [search_flights, hval]
    rw [hr]
    exact ⟨rfl, rfl, iff_of_true rfl rfl⟩
  · cases key with
    | none =>
      have hr : (search_flights parse src dst dep ret cur none net now).1 =
          mkConfigErr "flights" := by simp [search_flights, hval]
      rw [hr]
      exact ⟨rfl, rfl, iff_of_true rfl rfl⟩
    | some k =>
      cases hnet : net (sfParams src dst dep ret cur k) with
      | requestError m =>
        have hr : (search_flights parse src dst dep ret cur (some k) net now).1 =
            mkSfReqErr m src dst dep ret cur := by
          simp [search_flights, hval, hnet]
        rw [hr]
        exact ⟨rfl, rfl, iff_of_true rfl rfl⟩
      | otherError m =>
        have hr : (search_flights parse src dst dep ret cur (some k) net now).1 =
            mkSfGenErr m src dst dep ret cur := by
          simp [search_flights, hval, hnet]
        rw [hr]
        exact ⟨rfl, rfl, iff_of_true rfl rfl⟩
      | success results =>
        cases hafter : sfAfterNet parse results src dst dep ret cur now with
        | error e =>
          have hr : (search_flights parse src dst dep ret cur (some k) net now).1 =
              mkSfGenErr e src dst dep ret cur := by
            simp [search_flights, hval, hnet, hafter]
          rw [hr]
          exact ⟨rfl, rfl, iff_of_true rfl rfl⟩
        | ok j =>
          have hr : (search_flights parse src dst dep ret cur (some k) net now).1 =
              j := by
            simp [search_flights, hval, hnet, hafter]
          rw [hr]
          rcases sfAfterNet_ok_cases parse results src dst dep ret cur now j
            hafter with ⟨ev, hj⟩ | hj | hj
          · subst hj
            exact ⟨rfl, rfl, iff_of_true rfl rfl⟩
          · subst hj
            cases hc : processCore parse results src dst dep ret with
            | ok pr =>
              obtain ⟨top, ins⟩ := pr
              have hp : process_flight_data parse results src dst dep ret now =
                  mkProcessSuccess top ins src dst dep ret now := by
                simp [process_flight_data, hc]
              rw [hp]
              refine ⟨rfl, rfl, iff_of_false ?_ ?_⟩
              · intro hfalse
                exact Bool.noConfusion hfalse
              · intro hfalse
                have := Option.some.inj hfalse
                simp at this
            | error e =>
              have hp : process_flight_data parse results src dst dep ret now =
                  mkProcessError e src dst dep ret now := by
                simp [process_flight_data, hc]
              rw [hp]
              exact ⟨rfl, rfl, iff_of_true rfl rfl⟩
          · subst hj
            exact ⟨rfl, rfl, iff_of_true rfl rfl⟩

theorem sa_resp_fields (alpha : Char → Bool) (upper : String → String)
    (query : String) (key : Option String)
    (net : Params → NetResult) (now : String) :
    hasKey (search_airports alpha upper query key net now).1 "success" = true ∧
    (jget (search_airports alpha upper query key net now).1 "success" = some (.bool true) →
      hasKey (search_airports alpha upper query key net now).1 "serpapi_response" = true ∧
      hasKey (search_airports alpha upper query key net now).1 "query" = true ∧
      hasKey (search_airports alpha upper query key net now).1 "error" = false) ∧
    (jget (search_airports alpha upper query key net now).1 "success" = some (.bool false) →
      hasKey (search_airports alpha upper query key net now).1 "error" = true ∧
      hasKey (search_airports alpha upper query key net now).1 "airports" = true ∧
      hasKey (search_airports alpha upper query key net now).1 "serpapi_response" = false) := by
  cases key with
  | none =>
    refine ⟨rfl, ?_, ?_⟩
    · intro h
      have := Option.some.inj h
      simp [search_airports, mkConfigErr, jget, lookupField] at h
    · intro _
      exact ⟨rfl, rfl, rfl⟩
  | some k =>
    cases hnet : net (airportParams alpha upper query k) with
    | success results =>
      have hr : (search_airports alpha upper query (some k) net now).1 =
          mkAirportsSuccess results query now := by
        simp [search_airports, hnet]
      rw [hr]
      refine ⟨rfl, fun _ => ⟨rfl, rfl, rfl⟩, ?_⟩
      intro h
      have := Option.some.inj h
      simp at this
    | requestError m =>
      have hr : (search_airports alpha upper query (some k) net now).1 =
          mkAirportsErr ("API request failed: " ++ m) query := by
        simp [search_airports, hnet]
      rw [hr]
      refine ⟨rfl, ?_, fun _ => ⟨rfl, rfl, rfl⟩⟩
      intro h
      have := Option.some.inj h
      simp at this
    | otherError m =>
      have hr : (search_airports alpha upper query (some k) net now).1 =
          mkAirportsErr ("Error searching airports: " ++ m) query := by
        simp [search_airports, hnet]
      rw [hr]
      refine ⟨rfl, ?_, fun _ => ⟨rfl, rfl, rfl⟩⟩
      intro h
      have := Option.some.inj h
      simp at this

theorem gp_resp_fields (src dst sd ed cur : String) (key : Option String)
    (net : Params → NetResult) (now : String) :
    hasKey (get_flight_prices src dst sd ed cur key net now).1 "success"
      = true ∧
    (jget (get_flight_prices src dst sd ed cur key net now).1 "success" =
        some (.bool true) →
      hasKey (get_flight_prices src dst sd ed cur key net now).1
        "serpapi_response" = true ∧
      hasKey (get_flight_prices src dst sd ed cur key net now).1
        "error" = false ∧
      hasKey (get_flight_prices src dst sd ed cur key net now).1
        "price_trends" = false) ∧
    (jget (get_flight_prices src dst sd ed cur key net now).1 "success" =
        some (.bool false) →
      hasKey (get_flight_prices src dst sd ed cur key net now).1 "error"
        = true ∧
      hasKey (get_flight_prices src dst sd ed cur key net now).1
        "price_trends" = true ∧
      hasKey (get_flight_prices src dst sd ed cur key net now).1
        "serpapi_response" = false) := by
  cases key with
  | none =>
    refine ⟨rfl, ?_, fun _ => ⟨rfl, rfl, rfl⟩⟩
    intro h
    simp [get_flight_prices, mkConfigErr, jget, lookupField] at h
  | some k =>
    cases hnet : net (priceParams src dst sd ed cur k) with
    | success results =>
      have hr : (get_flight_prices src dst sd ed cur (some k) net now).1 =
          mkPricesSuccess results src dst sd ed cur now := by
        simp [get_flight_prices, hnet]
      rw [hr]
      refine ⟨rfl, fun _ => ⟨rfl, rfl, rfl⟩, ?_⟩
      intro h
      have := Option.some.inj h
      simp at this
    | requestError m =>
      have hr : (get_flight_prices src dst sd ed cur (some k) net now).1 =
          mkPricesErr ("API request failed: " ++ m) src dst sd ed cur := by
        simp [get_flight_prices, hnet]
      rw [hr]
      refine ⟨rfl, ?_, fun _ => ⟨rfl, rfl, rfl⟩⟩
      intro h
      have := Option.some.inj h
      simp at this
    | otherError m =>
      have hr : (get_flight_prices src dst sd ed cur (some k) net now).1 =
          mkPricesErr ("Error getting flight prices: " ++ m) src dst sd ed
            cur := by
        simp [get_flight_prices, hnet]
      rw [hr]
      refine ⟨rfl, ?_, fun _ => ⟨rfl, rfl, rfl⟩⟩
      intro h
      have := Option.some.inj h
      simp at this

/-- C2 (amended): every handler response carries `success`.  search_flights
responses always carry `flights`, and carry `error` exactly when success is
false.  search_airports and get_flight_prices carry `serpapi_response` (plus
the echoed query/params) exactly on success, and `error` with the empty
`airports` / `price_trends` list exactly on failure — contrary to the
original claim, `error` is absent from every success response and
`price_trends` / the endpoint result field is not present on both paths. -/
theorem claim_c2_amended (parse : String → Option String)
    (src dst dep : String) (ret : Option String) (cur : String)
    (key : Option String) (net : Params → NetResult) (now : String)
    (alpha : Char → Bool) (upper : String → String) (query sd ed : String) :
    (hasKey (search_flights parse src dst dep ret cur key net now).1 "success"
       = true ∧
     hasKey (search_flights parse src dst dep ret cur key net now).1 "flights"
       = true ∧
     (hasKey (search_flights parse src dst dep ret cur key net now).1 "error"
       = true ↔
      jget (search_flights parse src dst dep ret cur key net now).1 "success"
       = some (.bool false))) ∧
    (hasKey (search_airports alpha upper query key net now).1 "success" = true ∧
     (jget (search_airports alpha upper query key net now).1 "success" = some (.bool true) →
       hasKey (search_airports alpha upper query key net now).1 "serpapi_response" = true ∧
       hasKey (search_airports alpha upper query key net now).1 "query" = true ∧
       hasKey (search_airports alpha upper query key net now).1 "error" = false) ∧
     (jget (search_airports alpha upper query key net now).1 "success" = some (.bool false) →
       hasKey (search_airports alpha upper query key net now).1 "error" = true ∧
       hasKey (search_airports alpha upper query key net now).1 "airports" = true ∧
       hasKey (search_airports alpha upper query key net now).1 "serpapi_response" = false)) ∧
    (hasKey (get_flight_prices src dst sd ed cur key net now).1 "success"
       = true ∧
     (jget (get_flight_prices src dst sd ed cur key net now).1 "success" =
         some (.bool true) →
       hasKey (get_flight_prices src dst sd ed cur key net now).1
         "serpapi_response" = true ∧
       hasKey (get_flight_prices src dst sd ed cur key net now).1 "error"
         = false ∧
       hasKey (get_flight_prices src dst sd ed cur key net now).1
         "price_trends" = false) ∧
     (jget (get_flight_prices src dst sd ed cur key net now).1 "success" =
         some (.bool false) →
       hasKey (get_flight_prices src dst sd ed cur key net now).1 "error"
         = true ∧
       hasKey (get_flight_prices src dst sd ed cur key net now).1
         "price_trends" = true ∧
       hasKey (get_flight_prices src dst sd ed cur key net now).1
         "serpapi_response" = false)) :=
  ⟨sf_resp_fields parse src dst dep ret cur key net now,
   sa_resp_fields alpha upper query key net now,
   gp_resp_fields src dst sd ed cur key net now⟩

/-- C2 counterexample: a successful get_flight_prices response has
success=true but carries neither an `error` field nor a `price_trends` field
(the vendor body comes back under `serpapi_response`), refuting "`success`,
the endpoint-specific result field, and `error` are always present". -/
theorem claim_c2_counterexample :
    jget (get_flight_prices "JFK" "LAX" "2025-01-01" "2025-01-05" "USD"
      (some "k") netEmpty "ts").1 "success" = some (.bool true) ∧
    hasKey (get_flight_prices "JFK" "LAX" "2025-01-01" "2025-01-05" "USD"
      (some "k") netEmpty "ts").1 "error" = false ∧
    hasKey (get_flight_prices "JFK" "LAX" "2025-01-01" "2025-01-05" "USD"
      (some "k") netEmpty "ts").1 "price_trends" = false ∧
    hasKey (search_airports Char.isAlpha String.toUpper "LAX" (some "k")
      netEmpty "ts").1 "error" = false :=
  ⟨rfl, rfl, rfl, rfl⟩

theorem claim_c2_witness :
    hasKey (search_flights noParse "JFK" "LAX" "2025-03-06" none "USD"
      (some "k") netEmpty "ts").1 "success" = true ∧
    hasKey (search_flights noParse "JFK" "LAX" "2025-03-06" none "USD"
      (some "k") netEmpty "ts").1 "flights" = true ∧
    (hasKey (search_flights noParse "JFK" "LAX" "2025-03-06" none "USD"
      (some "k") netEmpty "ts").1 "error" = true ↔
     jget (search_flights noParse "JFK" "LAX" "2025-03-06" none "USD"
      (some "k") netEmpty "ts").1 "success" = some (.bool false)) :=
  (claim_c2_amended noParse "JFK" "LAX" "2025-03-06" none "USD" (some "k")
    netEmpty "ts" Char.isAlpha String.toUpper "LAX" "2025-01-01"
    "2025-01-05").1
